import Mathlib

/-!
Verification development for the event-debouncer core of a filesystem
watching library (the `debounce` module).  Paths are modelled as natural
numbers, `op::Op` as a record of six boolean flags, and the shared
`OperationsBuffer` as a function from paths to optional entries.  The
`WatchTimer` component lives in a source file that is not part of the
module under study, so it is modelled from the specification; everything
else is translated directly from the source of `Debounce`.
-/

/-- A filesystem path, abstracted to a natural number. -/
abbrev FsPath := Nat

/-- The bitset `op::Op` over the primitive operations. -/
structure Op where
  create : Bool
  write : Bool
  chmod : Bool
  rename : Bool
  remove : Bool
  rescan : Bool
deriving DecidableEq

/-- The empty bitset `op::Op::empty()`. -/
def Op.empty : Op := ⟨false, false, false, false, false, false⟩

/-- The `op::CREATE` flag. -/
def Op.CREATE : Op := ⟨true, false, false, false, false, false⟩

/-- The `op::WRITE` flag. -/
def Op.WRITE : Op := ⟨false, true, false, false, false, false⟩

/-- The `op::CHMOD` flag. -/
def Op.CHMOD : Op := ⟨false, false, true, false, false, false⟩

/-- The `op::RENAME` flag. -/
def Op.RENAME : Op := ⟨false, false, false, true, false, false⟩

/-- The `op::REMOVE` flag. -/
def Op.REMOVE : Op := ⟨false, false, false, false, true, false⟩

/-- The `op::RESCAN` flag. -/
def Op.RESCAN : Op := ⟨false, false, false, false, false, true⟩

/-- Bitwise union of two flag sets (`a | b`). -/
def Op.union (a b : Op) : Op :=
  ⟨a.create || b.create, a.write || b.write, a.chmod || b.chmod,
   a.rename || b.rename, a.remove || b.remove, a.rescan || b.rescan⟩

/-- Bitwise intersection of two flag sets (`a & b`). -/
def Op.inter (a b : Op) : Op :=
  ⟨a.create && b.create, a.write && b.write, a.chmod && b.chmod,
   a.rename && b.rename, a.remove && b.remove, a.rescan && b.rescan⟩

/-- Bitwise complement of a flag set (`!a`, over the six known bits). -/
def Op.compl (a : Op) : Op :=
  ⟨!a.create, !a.write, !a.chmod, !a.rename, !a.remove, !a.rescan⟩

/-- The bitflags `contains` test: every bit of `b` is set in `a`. -/
def Op.contains (a b : Op) : Bool := decide (a.inter b = b)

/-- The bitflags `intersects` test: `a` and `b` share a set bit. -/
def Op.intersects (a b : Op) : Bool := decide (a.inter b ≠ Op.empty)

/-- The bitflags `remove` operation: clear the bits of `b` from `a`. -/
def Op.removeBits (a b : Op) : Op := a.inter b.compl

/-- Events emitted by the library in debounced mode (`debounce::Event`).
Backend errors are abstracted to a numeric code. -/
inductive DEvent where
  | NoticeWrite (p : FsPath)
  | NoticeRemove (p : FsPath)
  | Create (p : FsPath)
  | Write (p : FsPath)
  | Chmod (p : FsPath)
  | Remove (p : FsPath)
  | Rename (src dst : FsPath)
  | Rescan
  | Error (e : Nat) (p : Option FsPath)
deriving DecidableEq

/-- Whether a debounced event is the `Error` variant. -/
def DEvent.isError : DEvent → Bool
  | .Error _ _ => true
  | _ => false

/-- The hand-written `impl PartialEq for Event`: componentwise equality on
every variant except `Error`, which falls through to the catch-all arm. -/
def eventEq (a b : DEvent) : Bool :=
  match a, b with
  | .NoticeWrite x, .NoticeWrite y => x == y
  | .NoticeRemove x, .NoticeRemove y => x == y
  | .Create x, .Create y => x == y
  | .Write x, .Write y => x == y
  | .Chmod x, .Chmod y => x == y
  | .Remove x, .Remove y => x == y
  | .Rename a1 a2, .Rename b1 b2 => a1 == b1 && a2 == b2
  | .Rescan, .Rescan => true
  | _, _ => false

/-- One slot of the `OperationsBuffer`: the tuple
`(Option<op::Op>, Option<PathBuf>, Option<u64>)`. -/
structure BufEntry where
  operation : Option Op
  from_path : Option FsPath
  timer_id : Option Nat
deriving DecidableEq

/-- Modelled from the spec: the `WatchTimer` worker state (its source file
is outside the module under study).  `schedule` returns a monotonically
increasing id and records `(id, path)` in deadline order; `ignore` marks an
id cancelled. -/
structure WatchTimer where
  counter : Nat
  schedule_list : List (Nat × FsPath)
  ignored : List Nat

/-- Modelled from the spec: arm a one-shot firing for `p`, returning the
fresh monotonically increasing timer id. -/
def WatchTimer.schedule (t : WatchTimer) (p : FsPath) : Nat × WatchTimer :=
  (t.counter,
   { t with counter := t.counter + 1,
            schedule_list := t.schedule_list ++ [(t.counter, p)] })

/-- Modelled from the spec: mark a timer id cancelled; a cancelled id fires
no output and does not touch the buffer. -/
def WatchTimer.ignore (t : WatchTimer) (id : Nat) : WatchTimer :=
  { t with ignored := id :: t.ignored }

/-- Update the operations buffer at one path. -/
def bufInsert (b : FsPath → Option BufEntry) (p : FsPath) (e : BufEntry) :
    FsPath → Option BufEntry :=
  fun q => if q = p then some e else b q

/-- Remove the operations-buffer entry at one path. -/
def bufRemove (b : FsPath → Option BufEntry) (p : FsPath) :
    FsPath → Option BufEntry :=
  fun q => if q = p then none else b q

/-- The `Debounce` coalescer state: the shared operations buffer, the open
rename source path and cookie, and the timer handle. -/
structure Debounce where
  operations_buffer : FsPath → Option BufEntry
  rename_path : Option FsPath
  rename_cookie : Option Nat
  timer : WatchTimer

/-- `restart_timer`: cancel the prior timer id, schedule a fresh one for
`path`, and return the new id together with the updated timer. -/
def restart_timer (timer_id : Option Nat) (path : FsPath) (timer : WatchTimer) :
    Option Nat × WatchTimer :=
  let timer := match timer_id with
    | some id => timer.ignore id
    | none => timer
  let r := timer.schedule path
  (some r.1, r.2)

/-- `remove_repeated_events`: filter redundant bits of an incoming op
against the dominant operation already buffered for the path. -/
def remove_repeated_events (op : Op) (prev_op : Option Op) : Op :=
  match prev_op with
  | some prev =>
    let op := if prev.intersects (Op.CREATE.union (Op.WRITE.union (Op.CHMOD.union Op.RENAME)))
      then op.removeBits Op.CREATE else op
    let op := if prev.contains Op.REMOVE then op.removeBits Op.REMOVE else op
    let op := if prev.contains Op.RENAME && decide (op.inter Op.RENAME.compl ≠ Op.empty)
      then op.removeBits Op.RENAME else op
    op
  | none => op

/-- The default slot inserted by `or_insert((None, None, None))`. -/
def emptyEntry : BufEntry := ⟨none, none, none⟩

/-- Result of one processing step: the events sent so far, and the updated
state, or `none` when the source would have panicked (`unreachable!()` or a
failed `expect`). -/
abbrev StepResult := List DEvent × Option Debounce

/-- Sequence two processing steps, concatenating their outputs and
propagating a panic. -/
def andThen (r : StepResult) (f : Debounce → StepResult) : StepResult :=
  match r with
  | (o, none) => (o, none)
  | (o, some d) => (o ++ (f d).1, (f d).2)

/-- `Debounce::check_partial_rename`: reconcile a broken rename pair.  The
incoming event is `(path, op, cookie)`; the pending source entry lives at
`rename_path`.  Faithful to the source, the `path` argument (not the
stored `rename_path`) is used for the notice, the rescheduled timer and
the deferred removal. -/
def check_partial_rename (d : Debounce) (ex : FsPath → Bool) (path : FsPath)
    (op : Op) (cookie : Option Nat) : Option (List DEvent × Debounce) :=
  match d.rename_path with
  | none => none
  | some rp =>
    match d.operations_buffer rp with
    | none => none
    | some entry =>
      if op ≠ Op.RENAME ∨ d.rename_cookie = none ∨ d.rename_cookie ≠ cookie then
        if ex rp then
          if entry.operation = some Op.RENAME ∧ entry.from_path = none then
            let r := restart_timer entry.timer_id path d.timer
            some ([], { d with
              operations_buffer := bufInsert d.operations_buffer rp
                { entry with operation := some Op.CREATE, timer_id := r.1 },
              timer := r.2, rename_path := none })
          else if entry.operation = some Op.REMOVE then
            let r := restart_timer entry.timer_id path d.timer
            some ([], { d with
              operations_buffer := bufInsert d.operations_buffer rp
                { entry with operation := some Op.WRITE, timer_id := r.1 },
              timer := r.2, rename_path := none })
          else none
        else
          if entry.operation = some Op.CREATE then
            let t := match entry.timer_id with
              | some id => d.timer.ignore id
              | none => d.timer
            some ([], { d with
              operations_buffer := bufRemove d.operations_buffer path,
              timer := t, rename_path := none })
          else if entry.operation = some Op.WRITE ∨ entry.operation = some Op.CHMOD then
            let r := restart_timer entry.timer_id path d.timer
            some ([DEvent.NoticeRemove path], { d with
              operations_buffer := bufInsert d.operations_buffer rp
                { entry with operation := some Op.REMOVE, timer_id := r.1 },
              timer := r.2, rename_path := none })
          else if entry.operation = some Op.RENAME then
            let r := restart_timer entry.timer_id path d.timer
            some ([], { d with
              operations_buffer := bufInsert d.operations_buffer rp
                { entry with operation := some Op.REMOVE, timer_id := r.1 },
              timer := r.2, rename_path := none })
          else none
      else
        some ([], d)

/-- The `op.contains(CREATE)` block of `Debounce::event`. -/
def processCreate (path : FsPath) (op : Op) (d : Debounce) : StepResult :=
  if op.contains Op.CREATE then
    let entry := (d.operations_buffer path).getD emptyEntry
    if entry.operation = some Op.CREATE ∨ entry.operation = some Op.WRITE ∨
        entry.operation = some Op.CHMOD ∨ entry.operation = some Op.RENAME then
      ([], none)
    else if entry.operation = some Op.REMOVE then
      let r := restart_timer entry.timer_id path d.timer
      ([], some { d with
        operations_buffer := bufInsert d.operations_buffer path
          { entry with operation := some Op.WRITE, timer_id := r.1 },
        timer := r.2 })
    else if entry.operation = none then
      let r := restart_timer entry.timer_id path d.timer
      ([], some { d with
        operations_buffer := bufInsert d.operations_buffer path
          { entry with operation := some Op.CREATE, timer_id := r.1 },
        timer := r.2 })
    else ([], none)
  else ([], some d)

/-- The `op.contains(WRITE)` block of `Debounce::event`. -/
def processWrite (path : FsPath) (op : Op) (d : Debounce) : StepResult :=
  if op.contains Op.WRITE then
    let entry := (d.operations_buffer path).getD emptyEntry
    if entry.operation = some Op.CREATE ∨ entry.operation = some Op.WRITE then
      let r := restart_timer entry.timer_id path d.timer
      ([], some { d with
        operations_buffer := bufInsert d.operations_buffer path
          { entry with timer_id := r.1 },
        timer := r.2 })
    else if entry.operation = some Op.CHMOD ∨ entry.operation = some Op.RENAME ∨
        entry.operation = none then
      let r := restart_timer entry.timer_id path d.timer
      ([DEvent.NoticeWrite path], some { d with
        operations_buffer := bufInsert d.operations_buffer path
          { entry with operation := some Op.WRITE, timer_id := r.1 },
        timer := r.2 })
    else ([], none)
  else ([], some d)

/-- The `op.contains(CHMOD)` block of `Debounce::event`. -/
def processChmod (path : FsPath) (op : Op) (d : Debounce) : StepResult :=
  if op.contains Op.CHMOD then
    let entry := (d.operations_buffer path).getD emptyEntry
    if entry.operation = some Op.CREATE ∨ entry.operation = some Op.WRITE ∨
        entry.operation = some Op.CHMOD then
      let r := restart_timer entry.timer_id path d.timer
      ([], some { d with
        operations_buffer := bufInsert d.operations_buffer path
          { entry with timer_id := r.1 },
        timer := r.2 })
    else if entry.operation = some Op.RENAME ∨ entry.operation = none then
      let r := restart_timer entry.timer_id path d.timer
      ([], some { d with
        operations_buffer := bufInsert d.operations_buffer path
          { entry with operation := some Op.CHMOD, timer_id := r.1 },
        timer := r.2 })
    else ([], none)
  else ([], some d)

/-- The `op.contains(RENAME)` block of `Debounce::event`: either the second
half of a rename pair (matching cookie while `rename_path` is set), which
merges the source entry into the destination, or the first half, which
records `rename_path` and `rename_cookie`. -/
def processRename (cookie : Option Nat) (path : FsPath) (op : Op)
    (d : Debounce) : StepResult :=
  if op.contains Op.RENAME then
    if d.rename_path.isSome ∧ d.rename_cookie.isSome ∧ d.rename_cookie = cookie then
      match d.rename_path with
      | none => ([], none)
      | some rp =>
        match d.operations_buffer rp with
        | none => ([], none)
        | some src =>
          let buf := bufRemove d.operations_buffer rp
          let t := match src.timer_id with
            | some id => d.timer.ignore id
            | none => d.timer
          let use_from_path := src.from_path.or (some rp)
          let entry := (buf path).getD emptyEntry
          if src.operation = some Op.CREATE then
            let r := restart_timer entry.timer_id path t
            ([], some { d with
              operations_buffer := bufInsert buf path
                { entry with operation := src.operation, from_path := none,
                             timer_id := r.1 },
              timer := r.2, rename_path := none })
          else if src.operation = some Op.WRITE ∨ src.operation = some Op.CHMOD ∨
              src.operation = some Op.RENAME then
            let r := restart_timer entry.timer_id path t
            ([], some { d with
              operations_buffer := bufInsert buf path
                { entry with operation := src.operation, from_path := use_from_path,
                             timer_id := r.1 },
              timer := r.2, rename_path := none })
          else ([], none)
    else
      let entry := (d.operations_buffer path).getD emptyEntry
      if entry.operation = some Op.CREATE ∨ entry.operation = some Op.RENAME then
        let r := restart_timer entry.timer_id path d.timer
        ([], some { d with
          operations_buffer := bufInsert d.operations_buffer path
            { entry with timer_id := r.1 },
          timer := r.2, rename_path := some path, rename_cookie := cookie })
      else if entry.operation = some Op.WRITE ∨ entry.operation = some Op.CHMOD then
        let r := restart_timer entry.timer_id path d.timer
        ([DEvent.NoticeRemove path], some { d with
          operations_buffer := bufInsert d.operations_buffer path
            { entry with timer_id := r.1 },
          timer := r.2, rename_path := some path, rename_cookie := cookie })
      else if entry.operation = none then
        let r := restart_timer entry.timer_id path d.timer
        ([DEvent.NoticeRemove path], some { d with
          operations_buffer := bufInsert d.operations_buffer path
            { entry with operation := some Op.RENAME, timer_id := r.1 },
          timer := r.2, rename_path := some path, rename_cookie := cookie })
      else ([], none)
  else ([], some d)

/-- The `op.contains(REMOVE)` block of `Debounce::event`: a pending `CREATE`
collapses silently (entry dropped, timer ignored, `rename_path` cleared when
it named this path); otherwise the entry is promoted to `REMOVE`. -/
def processRemove (path : FsPath) (op : Op) (d : Debounce) : StepResult :=
  if op.contains Op.REMOVE then
    let entry := (d.operations_buffer path).getD emptyEntry
    if entry.operation = some Op.CREATE then
      let t := match entry.timer_id with
        | some id => d.timer.ignore id
        | none => d.timer
      ([], some { d with
        operations_buffer := bufRemove d.operations_buffer path,
        timer := t,
        rename_path := if d.rename_path = some path then none else d.rename_path })
    else if entry.operation = some Op.WRITE ∨ entry.operation = some Op.CHMOD ∨
        entry.operation = none then
      let r := restart_timer entry.timer_id path d.timer
      ([DEvent.NoticeRemove path], some { d with
        operations_buffer := bufInsert d.operations_buffer path
          { entry with operation := some Op.REMOVE, timer_id := r.1 },
        timer := r.2 })
    else if entry.operation = some Op.RENAME then
      let r := restart_timer entry.timer_id path d.timer
      ([], some { d with
        operations_buffer := bufInsert d.operations_buffer path
          { entry with operation := some Op.REMOVE, timer_id := r.1 },
        timer := r.2 })
    else if entry.operation = some Op.REMOVE then
      ([], some d)
    else ([], none)
  else ([], some d)

/-- Redundancy filtering at the top of `Debounce::event`: repeated bits are
filtered against an existing entry; with no entry, an op carrying both
`CREATE` and `REMOVE` is resolved by a single existence check. -/
def Debounce.filterOp (d : Debounce) (ex : FsPath → Bool) (path : FsPath)
    (op : Op) : Op :=
  match d.operations_buffer path with
  | some e => remove_repeated_events op e.operation
  | none =>
    if op.contains (Op.CREATE.union Op.REMOVE) then
      if ex path then op.removeBits Op.REMOVE else op.removeBits Op.CREATE
    else op

/-- The five per-bit blocks of `Debounce::event`, in source order. -/
def handleOps (path : FsPath) (op : Op) (cookie : Option Nat)
    (d : Debounce) : StepResult :=
  andThen (processCreate path op d) (fun d1 =>
    andThen (processWrite path op d1) (fun d2 =>
      andThen (processChmod path op d2) (fun d3 =>
        andThen (processRename cookie path op d3) (fun d4 =>
          processRemove path op d4))))

/-- `Debounce::event`: ingest one raw event.  Emits `Rescan` immediately for
the `RESCAN` bit, reconciles a pending partial rename, filters redundant
bits, and runs the per-bit transition blocks. -/
def Debounce.event (d : Debounce) (ex : FsPath → Bool) (path : FsPath)
    (op : Op) (cookie : Option Nat) : StepResult :=
  let out0 : List DEvent := if op.contains Op.RESCAN then [DEvent.Rescan] else []
  let r1 : StepResult :=
    if d.rename_path.isSome then
      match check_partial_rename d ex path op cookie with
      | some r => (r.1, some r.2)
      | none => ([], none)
    else ([], some d)
  let r2 := andThen r1 (fun d1 => handleOps path (d1.filterOp ex path op) cookie d1)
  (out0 ++ r2.1, r2.2)

/-- `Debounce::new`: fresh state with an empty buffer, no open rename, and
a fresh timer. -/
def Debounce.new : Debounce :=
  ⟨fun _ => none, none, none, ⟨0, [], []⟩⟩

/-- One raw backend event together with the disk-existence oracle in force
when it is ingested (the source consults `path.exists()`). -/
structure RawInput where
  ex : FsPath → Bool
  path : FsPath
  op : Op
  cookie : Option Nat

/-- Ingest a list of raw events, collecting all emitted events; a panic
aborts the run, keeping the output emitted so far. -/
def runList (d : Debounce) : List RawInput → StepResult
  | [] => ([], some d)
  | i :: rest =>
    match d.event i.ex i.path i.op i.cookie with
    | (o, none) => (o, none)
    | (o, some d1) => (o ++ (runList d1 rest).1, (runList d1 rest).2)

/-- Modelled from the spec: the debounced event constructed from a drained
buffer entry (the emission mapping of the timer worker). -/
def fireTimer (e : BufEntry) (p : FsPath) : List DEvent :=
  match e.operation with
  | some o =>
    if o = Op.CREATE then [DEvent.Create p]
    else if o = Op.WRITE then [DEvent.Write p]
    else if o = Op.CHMOD then [DEvent.Chmod p]
    else if o = Op.REMOVE then [DEvent.Remove p]
    else if o = Op.RENAME then
      match e.from_path with
      | some src => [DEvent.Rename src p]
      | none => [DEvent.Create p]
    else []
  | none => []

/-- Modelled from the spec: the timer worker drains pending firings in
deadline order; an ignored id produces nothing, otherwise the buffer entry
for the firing path is removed and emitted. -/
def flushTimers : List (Nat × FsPath) → List Nat → (FsPath → Option BufEntry) →
    List DEvent
  | [], _, _ => []
  | (id, p) :: rest, ign, buf =>
    if ign.contains id then flushTimers rest ign buf
    else match buf p with
      | none => flushTimers rest ign buf
      | some e => fireTimer e p ++ flushTimers rest ign (bufRemove buf p)

/-- Drain every armed timer of a debouncer after the quiet period. -/
def Debounce.flush (d : Debounce) : List DEvent :=
  flushTimers d.timer.schedule_list d.timer.ignored d.operations_buffer

/-- Everything a consumer observes for a finite scenario: the events
emitted during ingestion followed by the debounced events fired once the
quiet period elapses. -/
def runAndFlush (l : List RawInput) : List DEvent :=
  match runList Debounce.new l with
  | (o, none) => o
  | (o, some d) => o ++ d.flush

/-- The ids of timers scheduled for a path and not cancelled. -/
def liveTimersFor (t : WatchTimer) (p : FsPath) : List Nat :=
  (t.schedule_list.filter (fun ip => ip.2 == p && !(t.ignored.contains ip.1))).map
    Prod.fst

/-- A disk oracle on which no path exists. -/
def exNone : FsPath → Bool := fun _ => false

/-- Scenario 5 of the specification (paths `/a`, `/c` as `0`, `2`): a WRITE
on `/a`, the first half of a rename of `/a` with cookie 3, then a CREATE on
`/c` while `/a` no longer exists on disk. -/
def scenario5 : List RawInput :=
  [⟨exNone, 0, Op.WRITE, none⟩, ⟨exNone, 0, Op.RENAME, some 3⟩,
   ⟨exNone, 2, Op.CREATE, none⟩]

/-- Scenario 6 of the specification (paths `/a`, `/b`, `/d` as `0`, `1`,
`3`): a chained rename `/a` to `/b` (cookie 1) then `/b` to `/d` (cookie
2), all within the quiet window. -/
def chain6 : List RawInput :=
  [⟨exNone, 0, Op.RENAME, some 1⟩, ⟨exNone, 1, Op.RENAME, some 1⟩,
   ⟨exNone, 1, Op.RENAME, some 2⟩, ⟨exNone, 3, Op.RENAME, some 2⟩]

/-- A single rename raw event with a cookie, used for the double-delivery
counterexample. -/
def rnEv : RawInput := ⟨exNone, 0, Op.RENAME, some 1⟩

/-- A completed rename pair `/a` to `/b` with cookie 7 (paths `0`, `1`). -/
def pair5 : List RawInput :=
  [⟨exNone, 0, Op.RENAME, some 7⟩, ⟨exNone, 1, Op.RENAME, some 7⟩]

/-- A remove followed by a write on the same path, which drives the write
block into an impossible cell. -/
def removeThenWrite : List RawInput :=
  [⟨exNone, 0, Op.REMOVE, none⟩, ⟨exNone, 0, Op.WRITE, none⟩]

/-- Claim C1: in scenario 5 the source would have to promote the pending
entry at the rename source path `/a` to REMOVE, emit `NoticeRemove(/a)` and
rearm the source timer, yielding `NoticeWrite(/a)`, `NoticeRemove(/a)`,
then `Remove(/a)` and `Create(/c)`.  Evaluating the translated source at
that input shows the promotion to REMOVE does happen, but the notice and
the rearmed timer use the incoming path `/c` instead, so the run emits a
spurious `NoticeRemove(/c)` and the `/a` entry is orphaned: `Remove(/a)` is
never fired. -/
theorem c1_partial_rename_uses_wrong_path :
    runAndFlush scenario5 =
      [DEvent.NoticeWrite 0, DEvent.NoticeRemove 0, DEvent.NoticeRemove 2,
       DEvent.Create 2] ∧
    DEvent.Remove 0 ∉ runAndFlush scenario5 ∧
    ((runList Debounce.new scenario5).2.bind
      (fun d => d.operations_buffer 0)).map BufEntry.operation =
        some (some Op.REMOVE) := by
  refine ⟨by decide, by decide, by decide⟩

/-- Claim C3: after scenario 5 the translated source holds two live
(non-ignored) timer ids, both scheduled for path `/c`, while the pending
entry at `/a` has no live timer at all: the timer rearmed during
partial-rename reconciliation was scheduled for the incoming path, so the
per-path uniqueness of live timers is violated. -/
theorem c3_two_live_timers_for_one_path :
    (runList Debounce.new scenario5).2.map
      (fun d => (liveTimersFor d.timer 2, liveTimersFor d.timer 0)) =
      some ([2, 3], []) := by
  decide

/-- Claim C2 counterexample: the claimed invariant says that whenever
`rename_path` is set the buffer entry at that path has dominant `RENAME`.
After the concrete run WRITE on `/a` then first-half RENAME on `/a`,
`rename_path` is `/a` but the entry at `/a` keeps dominant `WRITE` (the
first-half handling keeps a pending WRITE), so the claim fails. -/
theorem c2_rename_path_dominant_counterexample :
    (runList Debounce.new
      [⟨exNone, 0, Op.WRITE, none⟩, ⟨exNone, 0, Op.RENAME, some 1⟩]).2.map
      (fun d => (d.rename_path, (d.operations_buffer 0).map BufEntry.operation)) =
      some (some 0, some (some Op.WRITE)) ∧ Op.WRITE ≠ Op.RENAME := by
  refine ⟨by decide, by decide⟩

/-- Claim C4 counterexample: delivering the same `RENAME` raw event with a
cookie twice to a fresh debouncer is recognised as a rename pair from the
path onto itself, so the final debounced event is `Rename(/a, /a)` instead
of the `Create(/a)` produced by a single delivery; the outputs differ. -/
theorem c4_double_delivery_counterexample :
    runAndFlush [rnEv] = [DEvent.NoticeRemove 0, DEvent.Create 0] ∧
    runAndFlush [rnEv, rnEv] = [DEvent.NoticeRemove 0, DEvent.Rename 0 0] ∧
    runAndFlush [rnEv, rnEv] ≠ runAndFlush [rnEv] := by
  refine ⟨by decide, by decide, by decide⟩

/-- Claim C5 counterexample: after the completed rename pair of `pair5`
(cookie 7), `rename_path` is cleared but `rename_cookie` still holds
`some 7`: the source never assigns `None` to `rename_cookie`, so the claim
that both fields are cleared fails. -/
theorem c5_cookie_not_cleared_counterexample :
    (runList Debounce.new pair5).2.map
      (fun d => (d.rename_path, d.rename_cookie)) = some (none, some 7) := by
  decide

/-- Claim C6 counterexample: the chained-rename scenario claims a
`NoticeRemove(/b)` is emitted at the third event; the run emits no notice
there (the entry at `/b` already has dominant `RENAME`, and the first-half
handling for that state skips the notice), and no `NoticeRemove(/b)`
appears anywhere in the run. -/
theorem c6_no_second_notice_counterexample :
    DEvent.NoticeRemove 1 ∉ runAndFlush chain6 ∧
    (runList Debounce.new (chain6.take 2)).2.map
      (fun d => (d.event exNone 1 Op.RENAME (some 2)).1) = some [] := by
  refine ⟨by decide, by decide⟩

/-- Claim C6 amended: the chained-rename scenario emits `NoticeRemove(/a)`
at the first event, no notice at the third event, and after the quiet
period a single `Rename(/a, /d)` whose source is the original path `/a`,
preserved across the chain. -/
theorem c6_chained_rename_amended :
    runAndFlush chain6 = [DEvent.NoticeRemove 0, DEvent.Rename 0 3] := by
  decide

/-- Claim C7 counterexample: a REMOVE followed by a WRITE on the same path
drives the WRITE block into an impossible cell, and the source aborts with
`unreachable!()` rather than logging and skipping: the translated event
function signals the panic (second component `none`) instead of completing
with a valid buffer. -/
theorem c7_impossible_cell_panics_counterexample :
    (runList Debounce.new removeThenWrite).2.isNone = true ∧
    (runList Debounce.new removeThenWrite).1 = [DEvent.NoticeRemove 0] := by
  refine ⟨by decide, by decide⟩

/-- Claim C10: the hand-written equality on debounced events is reflexive
on every variant except `Error`, and an `Error` event is equal to nothing,
not even a structurally identical `Error` with the same error and path. -/
theorem c10_eventEq_not_reflexive_on_error :
    (∀ e : DEvent, eventEq e e = !e.isError) ∧
    (∀ (a : Nat) (b : Option FsPath) (e : DEvent),
      eventEq (DEvent.Error a b) e = false ∧
      eventEq e (DEvent.Error a b) = false) := by
  constructor
  · intro e
    cases e <;> simp [eventEq, DEvent.isError]
  · intro a b e
    cases e <;> simp [eventEq]

/-- The dominant operations a buffer entry can hold: exactly the five
primitive flags; in particular never `RESCAN` and never a multi-bit set. -/
def validDom (o : Op) : Prop :=
  o = Op.CREATE ∨ o = Op.WRITE ∨ o = Op.CHMOD ∨ o = Op.RENAME ∨ o = Op.REMOVE

/-- A buffer entry is well formed when its dominant operation is present
and one of the five primitives. -/
def entryOk (e : BufEntry) : Prop := ∃ o, e.operation = some o ∧ validDom o

/-- The buffer invariant: every entry is well formed, and an open
`rename_path` always has an entry in the buffer. -/
def BufInv (d : Debounce) : Prop :=
  (∀ q x, d.operations_buffer q = some x → entryOk x) ∧
  (∀ q, d.rename_path = some q → (d.operations_buffer q).isSome = true)

theorem entries_insert {b : FsPath → Option BufEntry} {e : BufEntry} {p : FsPath}
    (hb : ∀ q x, b q = some x → entryOk x) (he : entryOk e) :
    ∀ q x, bufInsert b p e q = some x → entryOk x := by
  intro q x hq
  unfold bufInsert at hq
  by_cases hqp : q = p
  · rw [if_pos hqp] at hq
    cases hq
    exact he
  · rw [if_neg hqp] at hq
    exact hb q x hq

theorem entries_remove {b : FsPath → Option BufEntry} {p : FsPath}
    (hb : ∀ q x, b q = some x → entryOk x) :
    ∀ q x, bufRemove b p q = some x → entryOk x := by
  intro q x hq
  unfold bufRemove at hq
  by_cases hqp : q = p
  · rw [if_pos hqp] at hq
    cases hq
  · rw [if_neg hqp] at hq
    exact hb q x hq

theorem isSome_insert {b : FsPath → Option BufEntry} (p : FsPath) (e : BufEntry)
    (q : FsPath) (h : (b q).isSome = true) : (bufInsert b p e q).isSome = true := by
  unfold bufInsert
  by_cases hqp : q = p
  · rw [if_pos hqp]
    rfl
  · rw [if_neg hqp]
    exact h

theorem isSome_insert_self (b : FsPath → Option BufEntry) (p : FsPath)
    (e : BufEntry) : (bufInsert b p e p).isSome = true := by
  unfold bufInsert
  rw [if_pos rfl]
  rfl

theorem isSome_remove_other {b : FsPath → Option BufEntry} {p q : FsPath}
    (hqp : q ≠ p) (h : (b q).isSome = true) : (bufRemove b p q).isSome = true := by
  unfold bufRemove
  rw [if_neg hqp]
  exact h

theorem processCreate_inv {path : FsPath} {op : Op} {d d1 : Debounce}
    (h : BufInv d) (hs : (processCreate path op d).2 = some d1) : BufInv d1 := by
  unfold processCreate at hs
  simp only [] at hs
  split at hs
  · split at hs
    · exact absurd hs (by simp)
    · split at hs
      · have hd := Option.some.inj hs
        subst hd
        refine ⟨entries_insert h.1 ⟨Op.WRITE, rfl, Or.inr (Or.inl rfl)⟩, ?_⟩
        intro q hq
        exact isSome_insert _ _ _ (h.2 q hq)
      · split at hs
        · have hd := Option.some.inj hs
          subst hd
          refine ⟨entries_insert h.1 ⟨Op.CREATE, rfl, Or.inl rfl⟩, ?_⟩
          intro q hq
          exact isSome_insert _ _ _ (h.2 q hq)
        · exact absurd hs (by simp)
  · have hd := Option.some.inj hs
    subst hd
    exact h

theorem processWrite_inv {path : FsPath} {op : Op} {d d1 : Debounce}
    (h : BufInv d) (hs : (processWrite path op d).2 = some d1) : BufInv d1 := by
  unfold processWrite at hs
  simp only [] at hs
  split at hs
  · split at hs
    case isTrue h1 =>
      have hd := Option.some.inj hs
      subst hd
      refine ⟨?_, ?_⟩
      · rcases h1 with h1 | h1
        · exact entries_insert h.1 ⟨Op.CREATE, h1, Or.inl rfl⟩
        · exact entries_insert h.1 ⟨Op.WRITE, h1, Or.inr (Or.inl rfl)⟩
      · intro q hq
        exact isSome_insert _ _ _ (h.2 q hq)
    case isFalse h1 =>
      split at hs
      · have hd := Option.some.inj hs
        subst hd
        refine ⟨entries_insert h.1 ⟨Op.WRITE, rfl, Or.inr (Or.inl rfl)⟩, ?_⟩
        intro q hq
        exact isSome_insert _ _ _ (h.2 q hq)
      · exact absurd hs (by simp)
  · have hd := Option.some.inj hs
    subst hd
    exact h

theorem processChmod_inv {path : FsPath} {op : Op} {d d1 : Debounce}
    (h : BufInv d) (hs : (processChmod path op d).2 = some d1) : BufInv d1 := by
  unfold processChmod at hs
  simp only [] at hs
  split at hs
  · split at hs
    case isTrue h1 =>
      have hd := Option.some.inj hs
      subst hd
      refine ⟨?_, ?_⟩
      · rcases h1 with h1 | h1 | h1
        · exact entries_insert h.1 ⟨Op.CREATE, h1, Or.inl rfl⟩
        · exact entries_insert h.1 ⟨Op.WRITE, h1, Or.inr (Or.inl rfl)⟩
        · exact entries_insert h.1 ⟨Op.CHMOD, h1, Or.inr (Or.inr (Or.inl rfl))⟩
      · intro q hq
        exact isSome_insert _ _ _ (h.2 q hq)
    case isFalse h1 =>
      split at hs
      · have hd := Option.some.inj hs
        subst hd
        refine ⟨entries_insert h.1 ⟨Op.CHMOD, rfl, Or.inr (Or.inr (Or.inl rfl))⟩, ?_⟩
        intro q hq
        exact isSome_insert _ _ _ (h.2 q hq)
      · exact absurd hs (by simp)
  · have hd := Option.some.inj hs
    subst hd
    exact h

theorem processRename_inv {cookie : Option Nat} {path : FsPath} {op : Op}
    {d d1 : Debounce} (h : BufInv d)
    (hs : (processRename cookie path op d).2 = some d1) : BufInv d1 := by
  unfold processRename at hs
  simp only [] at hs
  split at hs
  · split at hs
    · -- second half of a rename pair
      split at hs
      · exact absurd hs (by simp)
      · split at hs
        · exact absurd hs (by simp)
        · split at hs
          case isTrue h1 =>
            have hd := Option.some.inj hs
            subst hd
            refine ⟨?_, ?_⟩
            · exact entries_insert (entries_remove h.1) ⟨Op.CREATE, h1, Or.inl rfl⟩
            · intro q hq
              simp at hq
          case isFalse h1 =>
            split at hs
            case isTrue h2 =>
              have hd := Option.some.inj hs
              subst hd
              refine ⟨?_, ?_⟩
              · rcases h2 with h2 | h2 | h2
                · exact entries_insert (entries_remove h.1)
                    ⟨Op.WRITE, h2, Or.inr (Or.inl rfl)⟩
                · exact entries_insert (entries_remove h.1)
                    ⟨Op.CHMOD, h2, Or.inr (Or.inr (Or.inl rfl))⟩
                · exact entries_insert (entries_remove h.1)
                    ⟨Op.RENAME, h2, Or.inr (Or.inr (Or.inr (Or.inl rfl)))⟩
              · intro q hq
                simp at hq
            case isFalse h2 =>
              exact absurd hs (by simp)
    · -- first half of a rename
      split at hs
      case isTrue h1 =>
        have hd := Option.some.inj hs
        subst hd
        refine ⟨?_, ?_⟩
        · rcases h1 with h1 | h1
          · exact entries_insert h.1 ⟨Op.CREATE, h1, Or.inl rfl⟩
          · exact entries_insert h.1 ⟨Op.RENAME, h1, Or.inr (Or.inr (Or.inr (Or.inl rfl)))⟩
        · intro q hq
          cases hq
          exact isSome_insert_self _ _ _
      case isFalse h1 =>
        split at hs
        case isTrue h2 =>
          have hd := Option.some.inj hs
          subst hd
          refine ⟨?_, ?_⟩
          · rcases h2 with h2 | h2
            · exact entries_insert h.1 ⟨Op.WRITE, h2, Or.inr (Or.inl rfl)⟩
            · exact entries_insert h.1 ⟨Op.CHMOD, h2, Or.inr (Or.inr (Or.inl rfl))⟩
          · intro q hq
            cases hq
            exact isSome_insert_self _ _ _
        case isFalse h2 =>
          split at hs
          · have hd := Option.some.inj hs
            subst hd
            refine ⟨entries_insert h.1
              ⟨Op.RENAME, rfl, Or.inr (Or.inr (Or.inr (Or.inl rfl)))⟩, ?_⟩
            intro q hq
            cases hq
            exact isSome_insert_self _ _ _
          · exact absurd hs (by simp)
  · have hd := Option.some.inj hs
    subst hd
    exact h

theorem processRemove_inv {path : FsPath} {op : Op} {d d1 : Debounce}
    (h : BufInv d) (hs : (processRemove path op d).2 = some d1) : BufInv d1 := by
  unfold processRemove at hs
  simp only [] at hs
  split at hs
  · split at hs
    · -- CREATE collapse: drop entry, clear rename_path when it names this path
      have hd := Option.some.inj hs
      subst hd
      refine ⟨entries_remove h.1, ?_⟩
      intro q hq
      split at hq
      · cases hq
      case isFalse hrp =>
        refine isSome_remove_other ?_ (h.2 q hq)
        intro hqp
        exact hrp (hqp ▸ hq)
    · split at hs
      · have hd := Option.some.inj hs
        subst hd
        refine ⟨entries_insert h.1
          ⟨Op.REMOVE, rfl, Or.inr (Or.inr (Or.inr (Or.inr rfl)))⟩, ?_⟩
        intro q hq
        exact isSome_insert _ _ _ (h.2 q hq)
      · split at hs
        · have hd := Option.some.inj hs
          subst hd
          refine ⟨entries_insert h.1
            ⟨Op.REMOVE, rfl, Or.inr (Or.inr (Or.inr (Or.inr rfl)))⟩, ?_⟩
          intro q hq
          exact isSome_insert _ _ _ (h.2 q hq)
        · split at hs
          · have hd := Option.some.inj hs
            subst hd
            exact h
          · exact absurd hs (by simp)
  · have hd := Option.some.inj hs
    subst hd
    exact h

theorem check_partial_rename_inv {d : Debounce} {ex : FsPath → Bool}
    {path : FsPath} {op : Op} {cookie : Option Nat} {r : List DEvent × Debounce}
    (h : BufInv d) (hs : check_partial_rename d ex path op cookie = some r) :
    BufInv r.2 := by
  unfold check_partial_rename at hs
  split at hs
  · cases hs
  · split at hs
    · cases hs
    · split at hs
      · split at hs
        · split at hs
          · cases hs
            refine ⟨entries_insert h.1 ⟨Op.CREATE, rfl, Or.inl rfl⟩, ?_⟩
            intro q hq
            simp at hq
          · split at hs
            · cases hs
              refine ⟨entries_insert h.1
                ⟨Op.WRITE, rfl, Or.inr (Or.inl rfl)⟩, ?_⟩
              intro q hq
              simp at hq
            · cases hs
        · split at hs
          · cases hs
            refine ⟨entries_remove h.1, ?_⟩
            intro q hq
            simp at hq
          · split at hs
            · cases hs
              refine ⟨entries_insert h.1
                ⟨Op.REMOVE, rfl, Or.inr (Or.inr (Or.inr (Or.inr rfl)))⟩, ?_⟩
              intro q hq
              simp at hq
            · split at hs
              · cases hs
                refine ⟨entries_insert h.1
                  ⟨Op.REMOVE, rfl, Or.inr (Or.inr (Or.inr (Or.inr rfl)))⟩, ?_⟩
                intro q hq
                simp at hq
              · cases hs
      · cases hs
        exact h

theorem andThen_some {r : StepResult} {f : Debounce → StepResult} {d1 : Debounce}
    (hs : (andThen r f).2 = some d1) :
    ∃ d0, r.2 = some d0 ∧ (f d0).2 = some d1 := by
  obtain ⟨o, x⟩ := r
  cases x with
  | none => simp [andThen] at hs
  | some d0 => exact ⟨d0, rfl, hs⟩

theorem handleOps_inv {path : FsPath} {op : Op} {cookie : Option Nat}
    {d d1 : Debounce} (h : BufInv d)
    (hs : (handleOps path op cookie d).2 = some d1) : BufInv d1 := by
  unfold handleOps at hs
  obtain ⟨da, ha, hs⟩ := andThen_some hs
  obtain ⟨db, hb, hs⟩ := andThen_some hs
  obtain ⟨dc, hc, hs⟩ := andThen_some hs
  obtain ⟨dd, hd, hs⟩ := andThen_some hs
  exact processRemove_inv (processRename_inv (processChmod_inv
    (processWrite_inv (processCreate_inv h ha) hb) hc) hd) hs

theorem event_inv {d : Debounce} {ex : FsPath → Bool} {path : FsPath}
    {op : Op} {cookie : Option Nat} {d1 : Debounce} (h : BufInv d)
    (hs : (d.event ex path op cookie).2 = some d1) : BufInv d1 := by
  unfold Debounce.event at hs
  simp only [] at hs
  obtain ⟨d0, h0, hrest⟩ := andThen_some hs
  have h0inv : BufInv d0 := by
    split at h0
    · split at h0
      case h_1 r hcp =>
        have hd := Option.some.inj h0
        subst hd
        exact check_partial_rename_inv h hcp
      case h_2 hcp =>
        cases h0
    · have hd := Option.some.inj h0
      subst hd
      exact h
  exact handleOps_inv h0inv hrest

theorem runList_inv {l : List RawInput} {d d1 : Debounce} (h : BufInv d)
    (hs : (runList d l).2 = some d1) : BufInv d1 := by
  induction l generalizing d with
  | nil =>
    have hd := Option.some.inj hs
    subst hd
    exact h
  | cons i rest ih =>
    unfold runList at hs
    split at hs
    · cases hs
    case h_2 o d0 heq =>
      exact ih (event_inv h (by rw [heq])) hs

theorem new_inv : BufInv Debounce.new := by
  constructor
  · intro q x hq
    cases hq
  · intro q hq
    cases hq

/-- Claim C2 amended: whenever `rename_path` is set after a run of raw
events, the buffer does contain an entry keyed by that path, and that
entry's dominant operation is one of the five primitives; it need not be
`RENAME` (a first half of a rename on a path with a pending WRITE or CHMOD
keeps the prior dominant). -/
theorem c2_rename_path_entry_amended (l : List RawInput) (d : Debounce)
    (p : FsPath) (hrun : (runList Debounce.new l).2 = some d)
    (hrp : d.rename_path = some p) :
    ∃ e o, d.operations_buffer p = some e ∧ e.operation = some o ∧ validDom o := by
  have hinv := runList_inv new_inv hrun
  have hsome := hinv.2 p hrp
  cases hb : d.operations_buffer p with
  | none =>
    rw [hb] at hsome
    simp at hsome
  | some e =>
    obtain ⟨o, ho, hv⟩ := hinv.1 p e hb
    exact ⟨e, o, rfl, ho, hv⟩

/-- The run used to instantiate the amended claim C2: a single first-half
rename, which leaves `rename_path` set. -/
def c2List : List RawInput := [⟨exNone, 0, Op.RENAME, some 1⟩]

/-- The debouncer state after `c2List`. -/
def c2State : Debounce := ((runList Debounce.new c2List).2).getD Debounce.new

/-- Witness for the amended claim C2 at a concrete run. -/
theorem c2_rename_path_entry_amended_witness :
    (runList Debounce.new c2List).2 = some c2State ∧
    c2State.rename_path = some 0 ∧
    ∃ e o, c2State.operations_buffer 0 = some e ∧ e.operation = some o ∧
      validDom o :=
  ⟨rfl, rfl, c2_rename_path_entry_amended c2List c2State 0 rfl rfl⟩

/-- Claim C9: a raw event whose op carries the `RESCAN` bit makes
`Debounce::event` emit `Rescan` within that same call, and the dominant
operation stored in any buffer entry reachable from a fresh debouncer is
one of the five primitives, so it never carries the `RESCAN` bit: rescans
are forwarded, never queued. -/
theorem c9_rescan_forwarded_never_queued :
    (∀ (d : Debounce) (ex : FsPath → Bool) (path : FsPath) (op : Op)
      (cookie : Option Nat), op.contains Op.RESCAN = true →
      DEvent.Rescan ∈ (d.event ex path op cookie).1) ∧
    (∀ (l : List RawInput) (d : Debounce), (runList Debounce.new l).2 = some d →
      ∀ (q : FsPath) (e : BufEntry) (o : Op),
        d.operations_buffer q = some e → e.operation = some o →
        o.rescan = false) := by
  constructor
  · intro d ex path op cookie hop
    simp [Debounce.event, hop]
  · intro l d hrun q e o hq ho
    have hinv := runList_inv new_inv hrun
    obtain ⟨o2, ho2, hv⟩ := hinv.1 q e hq
    rw [ho] at ho2
    have hoo := Option.some.inj ho2
    subst hoo
    rcases hv with h | h | h | h | h <;> subst h <;> rfl

/-- The run used to instantiate claim C9: a single WRITE, leaving a buffer
entry with dominant `WRITE`. -/
def c9List : List RawInput := [⟨exNone, 0, Op.WRITE, none⟩]

/-- The debouncer state after `c9List`. -/
def c9State : Debounce := ((runList Debounce.new c9List).2).getD Debounce.new

/-- The buffer entry at path 0 after `c9List`. -/
def c9Entry : BufEntry := (c9State.operations_buffer 0).getD emptyEntry

/-- Witness for claim C9 at concrete inputs. -/
theorem c9_rescan_forwarded_never_queued_witness :
    (Op.RESCAN.contains Op.RESCAN = true ∧
      DEvent.Rescan ∈ (Debounce.new.event exNone 0 Op.RESCAN none).1) ∧
    ((runList Debounce.new c9List).2 = some c9State ∧
      c9State.operations_buffer 0 = some c9Entry ∧
      c9Entry.operation = some Op.WRITE ∧ Op.WRITE.rescan = false) :=
  ⟨⟨rfl, c9_rescan_forwarded_never_queued.1 Debounce.new exNone 0 Op.RESCAN none rfl⟩,
   ⟨rfl, rfl, rfl,
    c9_rescan_forwarded_never_queued.2 c9List c9State rfl 0 c9Entry Op.WRITE rfl rfl⟩⟩

theorem rr_rename (prev : Option Op) :
    remove_repeated_events Op.RENAME prev = Op.RENAME := by
  rcases prev with _ | ⟨c1, w1, h1, r1, m1, s1⟩
  · rfl
  · cases c1 <;> cases w1 <;> cases h1 <;> cases r1 <;> cases m1 <;> cases s1 <;> rfl

/-- Claim C5 amended: when the second half of a rename pair is recognised
(a RENAME whose cookie equals the stored `rename_cookie` while
`rename_path` is set and its source entry holds a pending
CREATE/WRITE/CHMOD/RENAME), the merge clears `rename_path` but leaves
`rename_cookie` untouched: the source never assigns `None` to the cookie,
which is harmless because pair recognition also requires `rename_path`. -/
theorem c5_rename_pair_merge_amended (d : Debounce) (ex : FsPath → Bool)
    (p q : FsPath) (cv : Nat) (e : BufEntry)
    (hrp : d.rename_path = some q) (hc : d.rename_cookie = some cv)
    (hb : d.operations_buffer q = some e)
    (ho : e.operation = some Op.CREATE ∨ e.operation = some Op.WRITE ∨
      e.operation = some Op.CHMOD ∨ e.operation = some Op.RENAME) :
    (d.event ex p Op.RENAME (some cv)).2.map
      (fun d1 => (d1.rename_path, d1.rename_cookie)) = some (none, some cv) := by
  have hflt : d.filterOp ex p Op.RENAME = Op.RENAME := by
    unfold Debounce.filterOp
    cases hbp : d.operations_buffer p with
    | some e2 => exact rr_rename e2.operation
    | none => rfl
  simp only [Op.CREATE, Op.WRITE, Op.CHMOD, Op.RENAME, Op.REMOVE, Op.RESCAN,
    Op.empty, Op.union, Op.inter, Op.compl, Op.contains, Op.removeBits] at hflt
  rcases ho with ho | ho | ho | ho <;>
    simp [Debounce.event, hrp, hc, hb, ho, hflt, check_partial_rename,
      handleOps, andThen, processCreate, processWrite, processChmod,
      processRename, processRemove, Op.contains, Op.inter, Op.intersects,
      Op.union, Op.removeBits, Op.compl, Op.CREATE, Op.WRITE, Op.CHMOD,
      Op.RENAME, Op.REMOVE, Op.RESCAN, Op.empty, emptyEntry, restart_timer,
      bufInsert, bufRemove]

/-- The debouncer state after a single first-half rename with cookie 7. -/
def c5State : Debounce :=
  ((runList Debounce.new [⟨exNone, 0, Op.RENAME, some 7⟩]).2).getD Debounce.new

/-- The source entry at path 0 in `c5State`. -/
def c5Entry : BufEntry := (c5State.operations_buffer 0).getD emptyEntry

/-- Witness for the amended claim C5 at a concrete second half. -/
theorem c5_rename_pair_merge_amended_witness :
    (c5State.rename_path = some 0 ∧ c5State.rename_cookie = some 7 ∧
     c5State.operations_buffer 0 = some c5Entry ∧
     (c5Entry.operation = some Op.CREATE ∨ c5Entry.operation = some Op.WRITE ∨
      c5Entry.operation = some Op.CHMOD ∨ c5Entry.operation = some Op.RENAME)) ∧
    (c5State.event exNone 1 Op.RENAME (some 7)).2.map
      (fun d1 => (d1.rename_path, d1.rename_cookie)) = some (none, some 7) :=
  ⟨⟨rfl, rfl, rfl, Or.inr (Or.inr (Or.inr rfl))⟩,
   c5_rename_pair_merge_amended c5State exNone 1 0 7 c5Entry rfl rfl rfl
     (Or.inr (Or.inr (Or.inr rfl)))⟩

/-- Claim C7 amended: reaching an impossible transition cell aborts
processing instead of logging and skipping: a WRITE or CHMOD raw event
arriving while a path's dominant is REMOVE (and no rename is pending)
makes `Debounce::event` hit `unreachable!()`, modelled as the panic result
`none`. -/
theorem c7_impossible_cell_amended (d : Debounce) (ex : FsPath → Bool)
    (p : FsPath) (c : Option Nat) (e : BufEntry) (o : Op)
    (hrp : d.rename_path = none) (hb : d.operations_buffer p = some e)
    (he : e.operation = some Op.REMOVE)
    (ho : o = Op.WRITE ∨ o = Op.CHMOD) :
    (d.event ex p o c).2 = none := by
  rcases ho with ho | ho <;> subst ho <;>
    simp [Debounce.event, hrp, hb, he, Debounce.filterOp, remove_repeated_events,
      handleOps, andThen, processCreate, processWrite, processChmod, processRename,
      processRemove, Op.contains, Op.inter, Op.intersects, Op.union, Op.removeBits,
      Op.compl, Op.CREATE, Op.WRITE, Op.CHMOD, Op.RENAME, Op.REMOVE, Op.RESCAN,
      Op.empty, emptyEntry, restart_timer]

/-- The debouncer state after a single REMOVE on path 0. -/
def c7State : Debounce :=
  ((runList Debounce.new [⟨exNone, 0, Op.REMOVE, none⟩]).2).getD Debounce.new

/-- The entry with dominant REMOVE at path 0 in `c7State`. -/
def c7Entry : BufEntry := (c7State.operations_buffer 0).getD emptyEntry

/-- Witness for the amended claim C7 at a concrete WRITE after REMOVE. -/
theorem c7_impossible_cell_amended_witness :
    (c7State.rename_path = none ∧ c7State.operations_buffer 0 = some c7Entry ∧
     c7Entry.operation = some Op.REMOVE ∧
     (Op.WRITE = Op.WRITE ∨ Op.WRITE = Op.CHMOD)) ∧
    (c7State.event exNone 0 Op.WRITE none).2 = none :=
  ⟨⟨rfl, rfl, rfl, Or.inl rfl⟩,
   c7_impossible_cell_amended c7State exNone 0 none c7Entry Op.WRITE rfl rfl rfl
     (Or.inl rfl)⟩

/-- Claim C4 amended: double-delivery idempotence holds for a raw event
whose op is a single primitive among CREATE, WRITE, CHMOD, REMOVE:
delivering it twice to a fresh debouncer yields the same emitted output
(notices plus final debounced events) as delivering it once.  It fails for
RENAME events with a cookie (the repeat is taken for the pair's second
half) and for the RESCAN bit (forwarded once per delivery). -/
theorem c4_double_delivery_amended (p : FsPath) (c : Option Nat)
    (ex : FsPath → Bool) (o : Op)
    (ho : o = Op.CREATE ∨ o = Op.WRITE ∨ o = Op.CHMOD ∨ o = Op.REMOVE) :
    runAndFlush [⟨ex, p, o, c⟩, ⟨ex, p, o, c⟩] = runAndFlush [⟨ex, p, o, c⟩] := by
  rcases ho with ho | ho | ho | ho <;> subst ho <;>
    simp [runAndFlush, runList, Debounce.event, Debounce.new, check_partial_rename,
      Debounce.filterOp, remove_repeated_events, handleOps, andThen,
      processCreate, processWrite, processChmod, processRename, processRemove,
      Op.contains, Op.inter, Op.intersects, Op.union, Op.removeBits, Op.compl,
      Op.CREATE, Op.WRITE, Op.CHMOD, Op.RENAME, Op.REMOVE, Op.RESCAN, Op.empty,
      emptyEntry, restart_timer, bufInsert, bufRemove, Debounce.flush,
      flushTimers, fireTimer, WatchTimer.schedule, WatchTimer.ignore]

/-- Witness for the amended claim C4 at a concrete WRITE event. -/
theorem c4_double_delivery_amended_witness :
    (Op.WRITE = Op.CREATE ∨ Op.WRITE = Op.WRITE ∨ Op.WRITE = Op.CHMOD ∨
      Op.WRITE = Op.REMOVE) ∧
    runAndFlush [⟨exNone, 0, Op.WRITE, none⟩, ⟨exNone, 0, Op.WRITE, none⟩] =
      runAndFlush [⟨exNone, 0, Op.WRITE, none⟩] :=
  ⟨Or.inr (Or.inl rfl),
   c4_double_delivery_amended 0 none exNone Op.WRITE (Or.inr (Or.inl rfl))⟩

/-- Claim C8: a CREATE followed by a REMOVE on the same path within the
quiet window produces no emitted output at all, discards the buffer entry,
and leaves no live timer for that path; and when the REMOVE arrives in an
op that also opened a rename on this path (the only way `rename_path` can
name the path at the REMOVE block), `rename_path` is cleared as well. -/
theorem c8_create_remove_collapse (p : FsPath) (c1 c2 : Option Nat) (cv : Nat)
    (ex1 ex2 : FsPath → Bool) :
    (runAndFlush [⟨ex1, p, Op.CREATE, c1⟩, ⟨ex2, p, Op.REMOVE, c2⟩] = [] ∧
     (runList Debounce.new [⟨ex1, p, Op.CREATE, c1⟩, ⟨ex2, p, Op.REMOVE, c2⟩]).2.map
       (fun d => ((d.operations_buffer p).isNone, d.rename_path,
         liveTimersFor d.timer p)) = some (true, none, [])) ∧
    (runAndFlush [⟨ex1, p, Op.CREATE, c1⟩,
        ⟨ex2, p, Op.RENAME.union Op.REMOVE, some cv⟩] = [] ∧
     (runList Debounce.new [⟨ex1, p, Op.CREATE, c1⟩,
        ⟨ex2, p, Op.RENAME.union Op.REMOVE, some cv⟩]).2.map
       (fun d => ((d.operations_buffer p).isNone, d.rename_path,
         liveTimersFor d.timer p)) = some (true, none, [])) := by
  refine ⟨⟨?_, ?_⟩, ⟨?_, ?_⟩⟩ <;>
    simp [runAndFlush, runList, Debounce.event, Debounce.new, check_partial_rename,
      Debounce.filterOp, remove_repeated_events, handleOps, andThen,
      processCreate, processWrite, processChmod, processRename, processRemove,
      Op.contains, Op.inter, Op.intersects, Op.union, Op.removeBits, Op.compl,
      Op.CREATE, Op.WRITE, Op.CHMOD, Op.RENAME, Op.REMOVE, Op.RESCAN, Op.empty,
      emptyEntry, restart_timer, bufInsert, bufRemove, Debounce.flush,
      flushTimers, fireTimer, WatchTimer.schedule, WatchTimer.ignore,
      liveTimersFor]
